import Mathlib

/-!
Shallow embedding of the Mobile-App-QR-Attendance task-manager client
(src/unnamed/part_000, a React component over a Supabase backend, plus
src/src/supabase-client.ts). The component keeps a local in-memory view of a
remote `tasks` collection and mediates create / read / update operations, and
uploads binary attachments to a storage bucket.

The remote collaborators (structured collection store, object store) are not
part of the repository; they are modelled from the spec's external-interface
contracts: the collection store assigns fresh increasing ids on insert and
honours an order-by modifier on select; the object store is a flat map from
(bucket, path) to blob content with overwrite-on-put semantics. Failures of
remote calls are injected as explicit boolean parameters, mirroring the
`if (error)` branches of the source.
-/

namespace TaskApp

/-- One row of the remote `tasks` collection; mirrors the TypeScript
`interface Task` (part_000 lines 6-12). `image_url` / `video_url` are
nullable, hence `Option`. -/
structure Task where
  id : Nat
  title : String
  description : String
  image_url : Option String
  video_url : Option String
deriving DecidableEq

/-- A chosen file: original name plus (abstract) binary content,
standing for the DOM `File` object. -/
structure FileBlob where
  name : String
  content : String
deriving DecidableEq

/-- The remote authoritative collection. `nextId` is the server-side id
sequence: insert assigns `nextId` and bumps it.
Modelled from the spec: "id: integer, unique, assigned by the remote store on
creation" (the store itself is not repository code). -/
structure Remote where
  rows : List Task
  nextId : Nat
deriving DecidableEq

/-- Well-formedness of the remote collection: ids are pairwise distinct and
below the id sequence counter. This is the store's documented invariant
(unique server-assigned ids). -/
def Remote.WF (r : Remote) : Prop :=
  (r.rows.map Task.id).Nodup ∧ ∀ t ∈ r.rows, t.id < r.nextId

instance (r : Remote) : Decidable r.WF := by
  unfold Remote.WF; infer_instance

/-- The object store: a list of (bucket, path, content) objects.
Modelled from the spec: "Object store: put(path, blob, overwrite) ,
publicUrlOf(path)". -/
structure Storage where
  objects : List (String × String × String)
deriving DecidableEq

/-- The single storage bucket the source ever names
(part_000 lines 38 and 48: `.from("notes-images")`). -/
def bucketName : String := "notes-images"

/-- `put` with overwrite-on-conflict: any existing object at the same
(bucket, path) is replaced. -/
def Storage.putUpsert (st : Storage) (bucket path content : String) : Storage :=
  { objects := (bucket, path, content) ::
      st.objects.filter (fun o => !(o.1 == bucket && o.2.1 == path)) }

/-- The path built by `uploadFile`:
`${folder}/${Date.now()}-${file.name}` (part_000 line 34). `now` stands for
the `Date.now()` timestamp. -/
def mkFilePath (folder : String) (now : Nat) (name : String) : String :=
  folder ++ "/" ++ toString now ++ "-" ++ name

/-- `uploadFile(file, folder)` (part_000 lines 32-62): build the path, upload
into bucket "notes-images" with `upsert: true`, then resolve the public URL
from the same bucket. Returns the updated store and `none` on upload error or
missing public URL, `some url` on success. `uploadErr` injects the storage
service's failure; `pubUrl` is the store's URL resolution (bucket, path). -/
def uploadFile (uploadErr : Bool) (pubUrl : String → String → Option String)
    (now : Nat) (st : Storage) (file : FileBlob) (folder : String) :
    Storage × Option String :=
  let filePath := mkFilePath folder now file.name
  if uploadErr then (st, none)
  else
    let st' := st.putUpsert bucketName filePath file.content
    match pubUrl bucketName filePath with
    | none => (st', none)
    | some u => (st', some u)

/-- The component's local React state: the local view `tasks`, the create-form
fields (`newTask.title`, `newTask.description`), the edit field
`newDescription`, and the chosen files (part_000 lines 15-19). -/
structure AppState where
  tasks : List Task
  newTaskTitle : String
  newTaskDescription : String
  newDescription : String
  taskImage : Option FileBlob
  taskVideo : Option FileBlob
deriving DecidableEq

/-- Descending-by-id order used by `fetchTasks`:
`a` may come before `b` when `b.id ≤ a.id`. -/
def idGe (a b : Task) : Prop := b.id ≤ a.id

/-- Strict descending-by-id order (what distinct adjacent rows satisfy). -/
def idGt (a b : Task) : Prop := b.id < a.id

instance : DecidableRel idGe := fun a b => Nat.decLe b.id a.id

instance : IsTotal Task idGe := ⟨fun a b => Nat.le_total b.id a.id⟩

instance : IsTrans Task idGe := ⟨fun _ _ _ hab hbc => Nat.le_trans hbc hab⟩

instance : IsAntisymm Task idGt :=
  ⟨fun _ _ hab hba => absurd (Nat.lt_trans hab hba) (Nat.lt_irrefl _)⟩

/-- The collection store's answer to
`select("*").order("id", { ascending: false })` (part_000 lines 109-112):
all rows, sorted by id descending.
Modelled from the spec for the store half: "select(all) -> ordered rows ...
supporting an order by column, direction modifier". -/
def selectDesc (r : Remote) : List Task :=
  r.rows.insertionSort idGe

/-- `fetchTasks` (part_000 lines 108-116): on read error the local view is
left as is (only a log), otherwise the local view is replaced wholesale by
the ordered select result. -/
def fetchTasks (readErr : Bool) (r : Remote) (s : AppState) : AppState :=
  if readErr then s else { s with tasks := selectDesc r }

/-- Remote effect of `insert([{title, description, image_url, video_url}])`:
one row appended with the server-assigned id.
Modelled from the spec for the store half: "Side effect: one row appended
remotely with a server-assigned id". -/
def Remote.insertTask (r : Remote) (title description : String)
    (img vid : Option String) : Remote :=
  { rows := r.rows ++ [⟨r.nextId, title, description, img, vid⟩],
    nextId := r.nextId + 1 }

/-- Remote effect of `update({description}).eq("id", id)`: every row matching
the id gets the new description; all other fields and rows untouched. -/
def Remote.updateDescription (r : Remote) (id : Nat) (d : String) : Remote :=
  { r with rows :=
      r.rows.map fun t => if t.id = id then { t with description := d } else t }

/-- The world outside the component: remote collection plus object store. -/
structure World where
  remote : Remote
  storage : Storage
deriving DecidableEq

/-- One conditional upload leg of `createTask` (part_000 lines 84-85):
`if (taskImage) imageUrl = await uploadFile(taskImage, "images")` — when no
file was chosen, no upload is attempted and the URL stays null. -/
def uploadStep (err : Bool) (pubUrl : String → String → Option String)
    (now : Nat) (st : Storage) (file : Option FileBlob) (folder : String) :
    Storage × Option String :=
  match file with
  | none => (st, none)
  | some f => uploadFile err pubUrl now st f folder

/-- `createTask` (part_000 lines 78-105): upload the chosen image (if any),
then the chosen video (if any); insert a row carrying the submitted title and
description and the resolved URLs (null when absent or failed); on insert
error only log; on success clear the form fields and chosen files and chain
into `fetchTasks`. Error injection: `imgErr`/`vidErr` for the two uploads,
`insertErr` for the insert, `readErr` for the chained fetch. -/
def createTask (now : Nat) (pubUrl : String → String → Option String)
    (imgErr vidErr insertErr readErr : Bool)
    (w : World) (s : AppState) : World × AppState :=
  let p1 := uploadStep imgErr pubUrl now w.storage s.taskImage "images"
  let p2 := uploadStep vidErr pubUrl now p1.1 s.taskVideo "videos"
  if insertErr then ({ w with storage := p2.1 }, s)
  else
    let r' := w.remote.insertTask s.newTaskTitle s.newTaskDescription p1.2 p2.2
    let s' := { s with newTaskTitle := "", newTaskDescription := "",
                       taskImage := none, taskVideo := none }
    ({ remote := r', storage := p2.1 }, fetchTasks readErr r' s')

/-- `updateTask(id)` (part_000 lines 119-131): remote partial update of the
description by id equality; on error only log (state and view untouched, no
chained fetch); on success clear `newDescription` and chain into
`fetchTasks`. -/
def updateTask (updateErr readErr : Bool) (r : Remote) (s : AppState)
    (id : Nat) : Remote × AppState :=
  if updateErr then (r, s)
  else
    let r' := r.updateDescription id s.newDescription
    (r', fetchTasks readErr r' { s with newDescription := "" })

/-- Modelled from the spec: the structured collection store is not repository
code; per the spec's error taxonomy and scenario ("update(id=5, ...) where id
5 does not exist remotely -> WriteFailure reported"), an update whose match
clause selects no row is reported as a write failure. -/
def remoteUpdateFails (r : Remote) (id : Nat) : Bool :=
  !(r.rows.any (fun t => t.id = id))

/-- The create form (part_000 lines 168-192): the title input, the
description textarea and both file inputs carry the HTML `required`
attribute, so the browser blocks submission — `createTask` is never invoked —
unless the title and description are non-empty and both files are chosen.
This embeds the standard semantics of `required` on those controls. -/
def formSubmit (now : Nat) (pubUrl : String → String → Option String)
    (imgErr vidErr insertErr readErr : Bool)
    (w : World) (s : AppState) : World × AppState :=
  if s.newTaskTitle = "" ∨ s.newTaskDescription = "" ∨
      s.taskImage = none ∨ s.taskVideo = none then (w, s)
  else createTask now pubUrl imgErr vidErr insertErr readErr w s

/-! ### Lemmas about the ordered select -/

/-- The ordered select is a permutation of the remote rows: nothing is added
or dropped by ordering. -/
theorem selectDesc_perm (r : Remote) : (selectDesc r).Perm r.rows :=
  List.perm_insertionSort idGe r.rows

/-- The ordered select is weakly sorted by descending id. -/
theorem selectDesc_sorted (r : Remote) : (selectDesc r).Pairwise idGe :=
  List.sorted_insertionSort idGe r.rows

/-- Sorting a list of tasks with pairwise-distinct ids by `idGe` yields a
strictly descending sequence. -/
theorem insertionSort_strict (l : List Task) (hnd : (l.map Task.id).Nodup) :
    (l.insertionSort idGe).Pairwise idGt := by
  have hperm : (l.insertionSort idGe).Perm l := List.perm_insertionSort idGe l
  have hle : (l.insertionSort idGe).Pairwise idGe :=
    List.sorted_insertionSort idGe l
  have hnd' : ((l.insertionSort idGe).map Task.id).Nodup :=
    (hperm.map Task.id).nodup_iff.mpr hnd
  have hne : (l.insertionSort idGe).Pairwise fun a b => a.id ≠ b.id :=
    List.pairwise_map.mp hnd'
  exact (hle.and hne).imp fun hab => lt_of_le_of_ne hab.1 (Ne.symm hab.2)

/-- A well-formed remote's ordered select is strictly descending by id. -/
theorem selectDesc_strict (r : Remote) (h : r.WF) :
    (selectDesc r).Pairwise idGt :=
  insertionSort_strict r.rows h.1

/-- Appending a row whose id is strictly larger than every existing id and
sorting puts the new row first, followed by the old sorted sequence. -/
theorem insertionSort_append_fresh (l : List Task) (u : Task)
    (hnd : (l.map Task.id).Nodup) (hu : ∀ t ∈ l, t.id < u.id) :
    (l ++ [u]).insertionSort idGe = u :: l.insertionSort idGe := by
  have hnd' : ((l ++ [u]).map Task.id).Nodup := by
    rw [List.map_append, List.nodup_append]
    refine ⟨hnd, List.nodup_singleton _, ?_⟩
    intro a ha hb
    rcases List.mem_map.mp ha with ⟨t, ht, rfl⟩
    rcases List.mem_singleton.mp hb with h
    exact absurd (h ▸ hu t ht) (lt_irrefl _)
  have h1 : ((l ++ [u]).insertionSort idGe).Pairwise idGt :=
    insertionSort_strict _ hnd'
  have h2 : (u :: l.insertionSort idGe).Pairwise idGt := by
    rw [List.pairwise_cons]
    refine ⟨?_, insertionSort_strict l hnd⟩
    intro b hb
    exact hu b ((List.perm_insertionSort idGe l).mem_iff.mp hb)
  have hp : ((l ++ [u]).insertionSort idGe).Perm (u :: l.insertionSort idGe) :=
    ((List.perm_insertionSort idGe (l ++ [u])).trans
      (List.perm_append_singleton u l)).trans
      (List.Perm.cons u (List.perm_insertionSort idGe l).symm)
  exact List.eq_of_perm_of_sorted hp h1 h2

/-! ### Lemmas about uploads and createTask -/

/-- The objects of an upsert put: the new object consed onto everything that
was not at the same (bucket, path). -/
theorem putUpsert_objects (st : Storage) (b p c : String) :
    (st.putUpsert b p c).objects =
      (b, p, c) :: st.objects.filter (fun o => !(o.1 == b && o.2.1 == p)) :=
  rfl

/-- Without a storage error, `uploadFile` stores the blob at the constructed
path in the "notes-images" bucket, whatever the public-URL resolution says. -/
theorem uploadFile_ok_storage (pubUrl : String → String → Option String)
    (now : Nat) (st : Storage) (f : FileBlob) (folder : String) :
    (uploadFile false pubUrl now st f folder).1 =
      st.putUpsert bucketName (mkFilePath folder now f.name) f.content := by
  cases hp : pubUrl bucketName (mkFilePath folder now f.name) <;>
    simp [uploadFile, hp]

/-- Without a storage error, `uploadFile` returns exactly the store's
public-URL resolution for the constructed path in the "notes-images"
bucket. -/
theorem uploadFile_ok_url (pubUrl : String → String → Option String)
    (now : Nat) (st : Storage) (f : FileBlob) (folder : String) :
    (uploadFile false pubUrl now st f folder).2 =
      pubUrl bucketName (mkFilePath folder now f.name) := by
  cases hp : pubUrl bucketName (mkFilePath folder now f.name) <;>
    simp [uploadFile, hp]

/-- Any object present after `uploadFile` was already present or lives in the
"notes-images" bucket. -/
theorem uploadFile_bucket_sub (err : Bool)
    (pubUrl : String → String → Option String) (now : Nat) (st : Storage)
    (f : FileBlob) (folder : String) :
    ∀ e ∈ (uploadFile err pubUrl now st f folder).1.objects,
      e ∈ st.objects ∨ e.1 = bucketName := by
  cases err with
  | false =>
      intro e he
      rw [uploadFile_ok_storage, putUpsert_objects] at he
      rcases List.mem_cons.mp he with rfl | hf
      · exact Or.inr rfl
      · exact Or.inl (List.mem_filter.mp hf).1
  | true => exact fun e he => Or.inl he

/-- Any object present after a conditional upload leg was already present or
lives in the "notes-images" bucket. -/
theorem uploadStep_bucket_sub (err : Bool)
    (pubUrl : String → String → Option String) (now : Nat) (st : Storage)
    (file : Option FileBlob) (folder : String) :
    ∀ e ∈ (uploadStep err pubUrl now st file folder).1.objects,
      e ∈ st.objects ∨ e.1 = bucketName := by
  cases file with
  | none => exact fun e he => Or.inl he
  | some f => exact uploadFile_bucket_sub err pubUrl now st f folder

/-- Storage after `createTask`, in terms of the two upload legs (the insert
outcome does not touch storage). -/
theorem createTask_storage (now : Nat)
    (pubUrl : String → String → Option String)
    (imgErr vidErr insertErr readErr : Bool) (w : World) (s : AppState) :
    (createTask now pubUrl imgErr vidErr insertErr readErr w s).1.storage =
      (uploadStep vidErr pubUrl now
        (uploadStep imgErr pubUrl now w.storage s.taskImage "images").1
        s.taskVideo "videos").1 := by
  cases insertErr <;> rfl

/-- Remote rows after a `createTask` whose insert succeeds: the old rows plus
one appended row built from the form fields and the two upload outcomes. -/
theorem createTask_success_rows (now : Nat)
    (pubUrl : String → String → Option String)
    (imgErr vidErr readErr : Bool) (w : World) (s : AppState) :
    (createTask now pubUrl imgErr vidErr false readErr w s).1.remote.rows =
      w.remote.rows ++
        [⟨w.remote.nextId, s.newTaskTitle, s.newTaskDescription,
          (uploadStep imgErr pubUrl now w.storage s.taskImage "images").2,
          (uploadStep vidErr pubUrl now
            (uploadStep imgErr pubUrl now w.storage s.taskImage "images").1
            s.taskVideo "videos").2⟩] :=
  rfl

/-! ### Sample data for closed witnesses -/

/-- A small well-formed remote collection. -/
def sampleRemote : Remote :=
  { rows := [⟨1, "a", "x", none, none⟩, ⟨2, "b", "y", some "u1", none⟩],
    nextId := 3 }

/-- A sample component state with filled-in form fields. -/
def sampleState : AppState :=
  { tasks := [], newTaskTitle := "Buy milk", newTaskDescription := "2%",
    newDescription := "done", taskImage := none, taskVideo := none }

/-! ### Claims -/

/-- C1: a successful `fetchTasks` replaces the local view wholesale with the
entire remote collection ordered by id strictly descending: the new view is
exactly the ordered select, it is a permutation of the remote rows, and every
pair of rows appearing in that order (in particular every adjacent pair
`(a, b)`) satisfies `a.id > b.id`. -/
theorem fetch_replaces_view_descending (r : Remote) (s : AppState)
    (h : r.WF) :
    (fetchTasks false r s).tasks = selectDesc r ∧
    ((fetchTasks false r s).tasks).Perm r.rows ∧
    ((fetchTasks false r s).tasks).Pairwise idGt :=
  ⟨rfl, selectDesc_perm r, selectDesc_strict r h⟩

/-- Witness for C1 at a concrete well-formed remote. -/
theorem fetch_replaces_view_descending_witness :
    sampleRemote.WF ∧
    ((fetchTasks false sampleRemote sampleState).tasks = selectDesc sampleRemote ∧
      ((fetchTasks false sampleRemote sampleState).tasks).Perm sampleRemote.rows ∧
      ((fetchTasks false sampleRemote sampleState).tasks).Pairwise idGt) :=
  ⟨by decide, fetch_replaces_view_descending sampleRemote sampleState (by decide)⟩

/-- C7: when the remote select reports an error, `fetchTasks` leaves the
whole component state — in particular the local view — untouched: stale but
intact, never cleared or partially replaced. -/
theorem fetch_error_keeps_view (r : Remote) (s : AppState) :
    fetchTasks true r s = s :=
  rfl

/-- C9: two successive successful `fetchTasks` calls against the same remote
collection yield the same local view as one. -/
theorem fetch_idempotent (r : Remote) (s : AppState) :
    (fetchTasks false r (fetchTasks false r s)).tasks =
      (fetchTasks false r s).tasks :=
  rfl

/-- C4: updating an id that matches no remote row is reported as a write
failure (remote contract modelled from the spec), and on that failure path
`updateTask` leaves both the remote collection and the whole component state
— local view, `newDescription` — unchanged, and chains into no refresh,
whatever a refresh would have returned (`readErr` arbitrary). -/
theorem update_missing_id_fails (r : Remote) (s : AppState) (id : Nat)
    (readErr : Bool) (h : ∀ t ∈ r.rows, t.id ≠ id) :
    remoteUpdateFails r id = true ∧
    updateTask (remoteUpdateFails r id) readErr r s id = (r, s) := by
  have hb : remoteUpdateFails r id = true := by
    simp only [remoteUpdateFails, Bool.not_eq_true', List.any_eq_false,
      decide_eq_true_eq]
    exact h
  refine ⟨hb, ?_⟩
  rw [hb]
  rfl

/-- Witness for C4: id 5 is absent from the sample remote. -/
theorem update_missing_id_fails_witness :
    (∀ t ∈ sampleRemote.rows, t.id ≠ 5) ∧
    (remoteUpdateFails sampleRemote 5 = true ∧
      updateTask (remoteUpdateFails sampleRemote 5) false sampleRemote
        sampleState 5 = (sampleRemote, sampleState)) :=
  ⟨by decide,
    update_missing_id_fails sampleRemote sampleState 5 false (by decide)⟩

/-- A sample world: the sample remote plus an empty object store. -/
def sampleWorld : World :=
  { remote := sampleRemote, storage := ⟨[]⟩ }

/-- A sample public-URL resolution for the object store. -/
def samplePub : String → String → Option String :=
  fun bucket path => some (bucket ++ "/" ++ path)

/-- C2: a successful `createTask` (remote insert succeeding, chained fetch
succeeding) leaves the local view equal to one new task consed onto the old
ordered view: the new task carries the submitted title and description, its
server-assigned id exceeds every previously observed id (so it comes first in
the descending order), exactly this one row was appended remotely, and the
success branch clears all four form fields. Upload outcomes are arbitrary. -/
theorem create_success_inserts_fresh_first (now : Nat)
    (pubUrl : String → String → Option String) (imgErr vidErr : Bool)
    (w : World) (s : AppState) (h : w.remote.WF) :
    ∃ u : Task,
      (createTask now pubUrl imgErr vidErr false false w s).2.tasks =
        u :: selectDesc w.remote ∧
      u.title = s.newTaskTitle ∧
      u.description = s.newTaskDescription ∧
      (∀ t ∈ w.remote.rows, t.id < u.id) ∧
      (createTask now pubUrl imgErr vidErr false false w s).1.remote.rows =
        w.remote.rows ++ [u] ∧
      (createTask now pubUrl imgErr vidErr false false w s).2.newTaskTitle = "" ∧
      (createTask now pubUrl imgErr vidErr false false w s).2.newTaskDescription = "" ∧
      (createTask now pubUrl imgErr vidErr false false w s).2.taskImage = none ∧
      (createTask now pubUrl imgErr vidErr false false w s).2.taskVideo = none := by
  refine ⟨⟨w.remote.nextId, s.newTaskTitle, s.newTaskDescription,
      (uploadStep imgErr pubUrl now w.storage s.taskImage "images").2,
      (uploadStep vidErr pubUrl now
        (uploadStep imgErr pubUrl now w.storage s.taskImage "images").1
        s.taskVideo "videos").2⟩,
    ?_, rfl, rfl, fun t ht => h.2 t ht, rfl, rfl, rfl, rfl, rfl⟩
  exact insertionSort_append_fresh w.remote.rows _ h.1 fun t ht => h.2 t ht

/-- Witness for C2 at concrete inputs (no files chosen, sample world). -/
theorem create_success_inserts_fresh_first_witness :
    sampleWorld.remote.WF ∧
    (∃ u : Task,
      (createTask 7 samplePub false false false false sampleWorld
          sampleState).2.tasks = u :: selectDesc sampleWorld.remote ∧
      u.title = sampleState.newTaskTitle ∧
      u.description = sampleState.newTaskDescription ∧
      (∀ t ∈ sampleWorld.remote.rows, t.id < u.id) ∧
      (createTask 7 samplePub false false false false sampleWorld
          sampleState).1.remote.rows = sampleWorld.remote.rows ++ [u] ∧
      (createTask 7 samplePub false false false false sampleWorld
          sampleState).2.newTaskTitle = "" ∧
      (createTask 7 samplePub false false false false sampleWorld
          sampleState).2.newTaskDescription = "" ∧
      (createTask 7 samplePub false false false false sampleWorld
          sampleState).2.taskImage = none ∧
      (createTask 7 samplePub false false false false sampleWorld
          sampleState).2.taskVideo = none) :=
  ⟨by decide,
    create_success_inserts_fresh_first 7 samplePub false false sampleWorld
      sampleState (by decide)⟩

/-- C3: for a task `t` present remotely, a successful `updateTask` on `t.id`
followed by the chained successful fetch yields a view containing the task
with that id whose description is the submitted `newDescription` and whose
title, image and video URLs are unchanged; it is the only row with that id;
every row with a different id is in the new view iff it was a remote row
before, unchanged; remotely only the matching row's description mutated. -/
theorem update_changes_only_description (r : Remote) (s : AppState) (t : Task)
    (h : r.WF) (ht : t ∈ r.rows) :
    (⟨t.id, t.title, s.newDescription, t.image_url, t.video_url⟩ : Task) ∈
      (updateTask false false r s t.id).2.tasks ∧
    (∀ v ∈ (updateTask false false r s t.id).2.tasks, v.id = t.id →
      v = ⟨t.id, t.title, s.newDescription, t.image_url, t.video_url⟩) ∧
    (∀ v : Task, v.id ≠ t.id →
      (v ∈ (updateTask false false r s t.id).2.tasks ↔ v ∈ r.rows)) ∧
    (updateTask false false r s t.id).1 =
      r.updateDescription t.id s.newDescription ∧
    (updateTask false false r s t.id).2.newDescription = "" := by
  have hperm : ((updateTask false false r s t.id).2.tasks).Perm
      (r.rows.map fun x =>
        if x.id = t.id then { x with description := s.newDescription } else x) :=
    selectDesc_perm (r.updateDescription t.id s.newDescription)
  have key : ∀ v : Task,
      v ∈ (updateTask false false r s t.id).2.tasks ↔
      v ∈ r.rows.map fun x =>
        if x.id = t.id then { x with description := s.newDescription } else x :=
    fun _ => hperm.mem_iff
  refine ⟨?_, ?_, ?_, rfl, rfl⟩
  · refine (key _).mpr (List.mem_map.mpr ⟨t, ht, ?_⟩)
    exact if_pos rfl
  · intro v hv hvid
    rcases List.mem_map.mp ((key v).mp hv) with ⟨x, hx, hfx⟩
    by_cases hxi : x.id = t.id
    · have hxt : x = t := List.inj_on_of_nodup_map h.1 hx ht hxi
      subst hxt
      rw [if_pos rfl] at hfx
      exact hfx.symm
    · rw [if_neg hxi] at hfx
      subst hfx
      exact absurd hvid hxi
  · intro v hvid
    rw [key v]
    constructor
    · intro hv
      rcases List.mem_map.mp hv with ⟨x, hx, hfx⟩
      by_cases hxi : x.id = t.id
      · rw [if_pos hxi] at hfx
        have : v.id = t.id := by rw [← hfx]; exact hxi
        exact absurd this hvid
      · rw [if_neg hxi] at hfx
        rw [← hfx]
        exact hx
    · intro hv
      refine List.mem_map.mpr ⟨v, hv, ?_⟩
      exact if_neg hvid

/-- Witness for C3 at a concrete remote row. -/
theorem update_changes_only_description_witness :
    sampleRemote.WF ∧
    (⟨1, "a", "x", none, none⟩ : Task) ∈ sampleRemote.rows ∧
    ((⟨1, "a", "done", none, none⟩ : Task) ∈
      (updateTask false false sampleRemote sampleState 1).2.tasks ∧
    (∀ v ∈ (updateTask false false sampleRemote sampleState 1).2.tasks,
      v.id = 1 → v = (⟨1, "a", "done", none, none⟩ : Task)) ∧
    (∀ v : Task, v.id ≠ 1 →
      (v ∈ (updateTask false false sampleRemote sampleState 1).2.tasks ↔
        v ∈ sampleRemote.rows)) ∧
    (updateTask false false sampleRemote sampleState 1).1 =
      sampleRemote.updateDescription 1 "done" ∧
    (updateTask false false sampleRemote sampleState 1).2.newDescription = "") :=
  ⟨by decide, by decide,
    update_changes_only_description sampleRemote sampleState
      ⟨1, "a", "x", none, none⟩ (by decide) (by decide)⟩

/-- C5: the create form's `required` attributes reject submission with an
empty title or empty description (no remote call happens, nothing changes),
and consequently — whatever the submitted fields and error outcomes — a
remote collection whose rows all carry non-empty titles and descriptions
still does after any form submission: no row with an empty title or
description is ever inserted through the form. -/
theorem create_requires_nonempty (now : Nat)
    (pubUrl : String → String → Option String)
    (imgErr vidErr insertErr readErr : Bool) (w : World) (s : AppState)
    (hinv : ∀ t ∈ w.remote.rows, t.title ≠ "" ∧ t.description ≠ "") :
    ((s.newTaskTitle = "" ∨ s.newTaskDescription = "") →
      formSubmit now pubUrl imgErr vidErr insertErr readErr w s = (w, s)) ∧
    ∀ t ∈ (formSubmit now pubUrl imgErr vidErr insertErr readErr w s).1.remote.rows,
      t.title ≠ "" ∧ t.description ≠ "" := by
  by_cases hc : s.newTaskTitle = "" ∨ s.newTaskDescription = "" ∨
      s.taskImage = none ∨ s.taskVideo = none
  · constructor
    · intro _
      unfold formSubmit
      rw [if_pos hc]
    · unfold formSubmit
      rw [if_pos hc]
      exact hinv
  · have h1 : s.newTaskTitle ≠ "" := fun e => hc (Or.inl e)
    have h2 : s.newTaskDescription ≠ "" := fun e => hc (Or.inr (Or.inl e))
    constructor
    · intro hor
      rcases hor with h | h
      · exact absurd h h1
      · exact absurd h h2
    · unfold formSubmit
      rw [if_neg hc]
      cases insertErr with
      | true => exact hinv
      | false =>
          intro t htm
          rcases List.mem_append.mp htm with hm | hm
          · exact hinv t hm
          · rw [List.mem_singleton.mp hm]
            exact ⟨h1, h2⟩

/-- Witness for C5 at the sample world and a state with an empty title. -/
theorem create_requires_nonempty_witness :
    (∀ t ∈ sampleWorld.remote.rows, t.title ≠ "" ∧ t.description ≠ "") ∧
    (("" = "" ∨ "2%" = "") →
      formSubmit 7 samplePub false false false false sampleWorld
        { sampleState with newTaskTitle := "" } =
        (sampleWorld, { sampleState with newTaskTitle := "" })) ∧
    ∀ t ∈ (formSubmit 7 samplePub false false false false sampleWorld
        { sampleState with newTaskTitle := "" }).1.remote.rows,
      t.title ≠ "" ∧ t.description ≠ "" :=
  ⟨by decide,
    (create_requires_nonempty 7 samplePub false false false false sampleWorld
      { sampleState with newTaskTitle := "" } (by decide)).1,
    (create_requires_nonempty 7 samplePub false false false false sampleWorld
      { sampleState with newTaskTitle := "" } (by decide)).2⟩

/-- C6: attachment failure degrades to absence instead of aborting creation:
with no file chosen for either category, no upload is attempted (the object
store is untouched) and the inserted row carries null for both references;
if the image (resp. video) upload is attempted and the storage service fails
it, the row is still inserted with the submitted title and description and a
null image (resp. video) reference. Insert and chained fetch succeed. -/
theorem attachment_failure_degrades (now : Nat)
    (pubUrl : String → String → Option String) (imgErr vidErr : Bool)
    (w : World) (s : AppState) :
    (s.taskImage = none → s.taskVideo = none →
      (createTask now pubUrl imgErr vidErr false false w s).1.storage =
        w.storage ∧
      (createTask now pubUrl imgErr vidErr false false w s).1.remote.rows =
        w.remote.rows ++
          [⟨w.remote.nextId, s.newTaskTitle, s.newTaskDescription,
            none, none⟩]) ∧
    (∀ f, s.taskImage = some f → imgErr = true →
      ∃ vUrl, (createTask now pubUrl imgErr vidErr false false w s).1.remote.rows =
        w.remote.rows ++
          [⟨w.remote.nextId, s.newTaskTitle, s.newTaskDescription,
            none, vUrl⟩]) ∧
    (∀ g, s.taskVideo = some g → vidErr = true →
      ∃ iUrl, (createTask now pubUrl imgErr vidErr false false w s).1.remote.rows =
        w.remote.rows ++
          [⟨w.remote.nextId, s.newTaskTitle, s.newTaskDescription,
            iUrl, none⟩]) := by
  refine ⟨?_, ?_, ?_⟩
  · intro h1 h2
    constructor
    · rw [createTask_storage, h1, h2]
      rfl
    · rw [createTask_success_rows, h1, h2]
      rfl
  · intro f hf himg
    refine ⟨(uploadStep vidErr pubUrl now w.storage s.taskVideo "videos").2, ?_⟩
    rw [createTask_success_rows, hf, himg]
    rfl
  · intro g hg hvid
    refine ⟨(uploadStep imgErr pubUrl now w.storage s.taskImage "images").2, ?_⟩
    rw [createTask_success_rows, hg, hvid]
    rfl

/-- Witness for C6: no files chosen in the sample state. -/
theorem attachment_failure_degrades_witness :
    sampleState.taskImage = none ∧ sampleState.taskVideo = none ∧
    ((createTask 7 samplePub false false false false sampleWorld
        sampleState).1.storage = sampleWorld.storage ∧
      (createTask 7 samplePub false false false false sampleWorld
        sampleState).1.remote.rows =
        sampleWorld.remote.rows ++
          [⟨sampleWorld.remote.nextId, sampleState.newTaskTitle,
            sampleState.newTaskDescription, none, none⟩]) :=
  ⟨rfl, rfl,
    (attachment_failure_degrades 7 samplePub false false sampleWorld
      sampleState).1 rfl rfl⟩

/-- A sample object store already holding one object, under a different
bucket and path than any upload in the witnesses targets. -/
def sampleStorage : Storage :=
  ⟨[("other-bucket", "p", "c")]⟩

/-- C8: `uploadFile` stores under the path `folder/<timestamp>-<name>` and
with upsert semantics: the new object is present afterwards, it is the only
object at that (bucket, path) — a collision silently overwrites rather than
failing — every object at any other (bucket, path) survives, and the call
still succeeds (returning the store's URL resolution) whatever the prior
contents of the store. -/
theorem upload_path_and_upsert (pubUrl : String → String → Option String)
    (now : Nat) (st : Storage) (f : FileBlob) (folder : String) :
    mkFilePath folder now f.name =
      folder ++ "/" ++ toString now ++ "-" ++ f.name ∧
    (bucketName, mkFilePath folder now f.name, f.content) ∈
      (uploadFile false pubUrl now st f folder).1.objects ∧
    (∀ e ∈ (uploadFile false pubUrl now st f folder).1.objects,
      e.1 = bucketName → e.2.1 = mkFilePath folder now f.name →
      e = (bucketName, mkFilePath folder now f.name, f.content)) ∧
    (∀ e ∈ st.objects, ¬(e.1 = bucketName ∧ e.2.1 = mkFilePath folder now f.name) →
      e ∈ (uploadFile false pubUrl now st f folder).1.objects) ∧
    (uploadFile false pubUrl now st f folder).2 =
      pubUrl bucketName (mkFilePath folder now f.name) := by
  refine ⟨rfl, ?_, ?_, ?_, uploadFile_ok_url pubUrl now st f folder⟩
  · rw [uploadFile_ok_storage, putUpsert_objects]
    exact List.mem_cons_self _ _
  · intro e he hb hp
    rw [uploadFile_ok_storage, putUpsert_objects] at he
    rcases List.mem_cons.mp he with rfl | hf
    · rfl
    · have hq := (List.mem_filter.mp hf).2
      rw [hb, hp] at hq
      simp at hq
  · intro e he hne
    rw [uploadFile_ok_storage, putUpsert_objects]
    refine List.mem_cons.mpr (Or.inr (List.mem_filter.mpr ⟨he, ?_⟩))
    rcases not_and_or.mp hne with hb | hp
    · simp [hb]
    · simp [hp]

/-- Witness for C8: upload into a store holding one unrelated object; the
unrelated object survives the upsert. -/
theorem upload_path_and_upsert_witness :
    ("other-bucket", "p", "c") ∈ sampleStorage.objects ∧
    ¬(("other-bucket", "p", "c").1 = bucketName ∧
      ("other-bucket", "p", "c").2.1 = mkFilePath "images" 7 "a.png") ∧
    ("other-bucket", "p", "c") ∈
      (uploadFile false samplePub 7 sampleStorage ⟨"a.png", "d"⟩
        "images").1.objects :=
  ⟨by decide, by decide,
    (upload_path_and_upsert samplePub 7 sampleStorage ⟨"a.png", "d"⟩
      "images").2.2.2.1 ("other-bucket", "p", "c") (by decide) (by decide)⟩

/-- C10: every attachment upload — directly via `uploadFile` or through
either leg of `createTask` — only ever adds objects to the single bucket
"notes-images", and resolves the public URL from that same bucket; the
category argument never selects a different bucket. -/
theorem uploads_single_bucket (uploadErr : Bool)
    (pubUrl : String → String → Option String) (now : Nat) (st : Storage)
    (f : FileBlob) (folder : String)
    (imgErr vidErr insertErr readErr : Bool) (w : World) (s : AppState) :
    bucketName = "notes-images" ∧
    (∀ e ∈ (uploadFile uploadErr pubUrl now st f folder).1.objects,
      e ∈ st.objects ∨ e.1 = bucketName) ∧
    (uploadFile false pubUrl now st f folder).2 =
      pubUrl bucketName (mkFilePath folder now f.name) ∧
    ∀ e ∈ (createTask now pubUrl imgErr vidErr insertErr readErr w s).1.storage.objects,
      e ∈ w.storage.objects ∨ e.1 = bucketName := by
  refine ⟨rfl, uploadFile_bucket_sub uploadErr pubUrl now st f folder,
    uploadFile_ok_url pubUrl now st f folder, ?_⟩
  intro e he
  rw [createTask_storage] at he
  rcases uploadStep_bucket_sub vidErr pubUrl now _ s.taskVideo "videos" e he
      with h | h
  · exact uploadStep_bucket_sub imgErr pubUrl now _ s.taskImage "images" e h
  · exact Or.inr h

/-- Witness for C10: the object freshly uploaded through `createTask` with an
image file chosen lands in the "notes-images" bucket. -/
theorem uploads_single_bucket_witness :
    (bucketName, mkFilePath "images" 7 "a.png", "d") ∈
      (createTask 7 samplePub false false false false sampleWorld
        { sampleState with taskImage := some ⟨"a.png", "d"⟩ }).1.storage.objects ∧
    ((bucketName, mkFilePath "images" 7 "a.png", "d") ∈
        sampleWorld.storage.objects ∨
      (bucketName, mkFilePath "images" 7 "a.png", "d").1 = bucketName) :=
  ⟨by decide,
    (uploads_single_bucket false samplePub 7 sampleStorage ⟨"a.png", "d"⟩
      "images" false false false false sampleWorld
      { sampleState with taskImage := some ⟨"a.png", "d"⟩ }).2.2.2
      (bucketName, mkFilePath "images" 7 "a.png", "d") (by decide)⟩

end TaskApp
